import Mathlib

/-!
A shallow embedding of the weather backend in `Assignment_SYNB.py`: the
sqlite observation table, the ingestion insert loop, the windowed range
query, the pandas statistics of the report, and the request handlers.

Timestamps are ISO-8601 TEXT in the store and are compared by sqlite as
strings; strings of the format stored here compare in chronological order,
so timestamps are modelled as integers. REAL columns are modelled as
rationals.
-/

namespace WeatherApp

/-- A Python value bound into an SQL parameter slot: `None` (binds as NULL),
a number (binds as REAL), or a value of a type the sqlite driver rejects,
which raises `InterfaceError` at `cursor.execute`. -/
inductive PyVal where
  | null
  | num (q : Rat)
  | bad
deriving DecidableEq, Repr

/-- One row of the `weather_data` table. Per `init_db` (lines 26-36) the
schema is: `id INTEGER PRIMARY KEY AUTOINCREMENT`, `timestamp TEXT NOT NULL`,
`latitude REAL NOT NULL`, `longitude REAL NOT NULL`, `temperature_2m REAL`
(nullable), `relative_humidity_2m REAL` (nullable), plus a `created_at`
default column that no query reads. The `id` primary key is the only
uniqueness constraint the table declares. -/
structure WeatherRow where
  id : Nat
  timestamp : Int
  latitude : Rat
  longitude : Rat
  temperature_2m : Option Rat
  relative_humidity_2m : Option Rat
deriving DecidableEq, Repr

/-- The `weather_data` table together with the autoincrement counter that
feeds the `id` column. -/
structure WeatherDb where
  rows : List WeatherRow
  nextId : Nat
deriving DecidableEq, Repr

/-- One `INSERT OR REPLACE` statement of `insert_weather_data` (lines 50-54).
`REPLACE` first deletes every existing row that would collide with the new
row on some uniqueness constraint of the table, then inserts. The only
uniqueness constraint declared by `init_db` is the autoincrement primary key
`id`, and the statement does not supply an `id`, so the new row gets a fresh
`id`: the delete set is empty and the statement appends. -/
def insertOrReplaceRow (db : WeatherDb) (ts : Int) (lat lon : Rat)
    (temp hum : Option Rat) : WeatherDb :=
  { rows := db.rows.filter (fun r => decide (r.id ≠ db.nextId)) ++
      [{ id := db.nextId, timestamp := ts, latitude := lat, longitude := lon,
         temperature_2m := temp, relative_humidity_2m := hum }],
    nextId := db.nextId + 1 }

/-- A Python exception raised inside the insert loop. -/
inductive DbError where
  | interfaceError
  | indexError
deriving DecidableEq, Repr

/-- Binding one Python value as an SQL parameter. -/
def bindVal : PyVal → Except DbError (Option Rat)
  | .null => .ok Option.none
  | .num q => .ok (some q)
  | .bad => .error .interfaceError

/-- The parallel hourly arrays that `insert_weather_data` reads out of the
upstream JSON payload (lines 45-47). -/
structure HourlyData where
  time : List Int
  temperature_2m : List PyVal
  relative_humidity_2m : List PyVal
deriving DecidableEq, Repr

/-- The loop of `insert_weather_data` (lines 49-54): for each index `i` of
the time array, build the parameter tuple from `timestamps[i]`,
`temperatures[i]` and `humidity[i]` and execute one `INSERT OR REPLACE`.
A value array shorter than the time array raises `IndexError` when the tuple
is built; a malformed value raises `InterfaceError` when it is bound. The
uncommitted connection state is threaded through; an error aborts the loop
before `conn.commit()` runs, so nothing of the batch becomes durable and the
error result carries no state. -/
def insertRows (lat lon : Rat) :
    List Int → List PyVal → List PyVal → WeatherDb → Except DbError WeatherDb
  | [], _, _, db => .ok db
  | _ :: _, [], _, _ => .error .indexError
  | _ :: _, _ :: _, [], _ => .error .indexError
  | t :: ts, tv :: tvs, hv :: hvs, db =>
    match bindVal tv, bindVal hv with
    | .ok tq, .ok hq =>
        insertRows lat lon ts tvs hvs (insertOrReplaceRow db t lat lon tq hq)
    | .error e, _ => .error e
    | .ok _, .error e => .error e

/-- `insert_weather_data` (lines 40-57): open a connection, run the insert
loop over the hourly arrays, and commit only after the whole loop has
succeeded. On success the result is the newly committed state; on error the
commit never ran, the transaction is rolled back, and the durable state is
still the caller's `db`. -/
def insert_weather_data (data : HourlyData) (lat lon : Rat) (db : WeatherDb) :
    Except DbError WeatherDb :=
  insertRows lat lon data.time data.temperature_2m data.relative_humidity_2m db

/-- The `ORDER BY timestamp ASC` ordering relation. -/
def byTs (r s : WeatherRow) : Prop := r.timestamp ≤ s.timestamp

instance : DecidableRel byTs := fun r s => Int.decLe r.timestamp s.timestamp

instance : IsTotal WeatherRow byTs := ⟨fun a b => Int.le_total a.timestamp b.timestamp⟩

instance : IsTrans WeatherRow byTs := ⟨fun _ _ _ hab hbc => le_trans hab hbc⟩

/-- The SQL range query of `get_weather_data_from_db` (lines 67-74):
`SELECT ... WHERE timestamp >= ? AND timestamp <= ? ORDER BY timestamp ASC`.
Both bounds are inclusive. -/
def weatherRangeQuery (db : WeatherDb) (fromT toT : Int) : List WeatherRow :=
  List.insertionSort byTs
    (db.rows.filter (fun r => decide (fromT ≤ r.timestamp) && decide (r.timestamp ≤ toT)))

/-- `get_weather_data_from_db` (lines 59-83). `datetime.now()` is called
twice: once inside the `cutoff_time` expression on line 63 and once inside
the `now_time` expression on line 64. `clock k` is the value returned by the
k-th `datetime.now()` call of this invocation; `timedelta(hours=hours)`
subtracts `hours` time units. -/
def get_weather_data_from_db (db : WeatherDb) (clock : Nat → Int) (hours : Int) :
    List WeatherRow :=
  let cutoff_time := clock 0 - hours
  let now_time := clock 1
  weatherRangeQuery db cutoff_time now_time

/-- Modelled from the spec: the windowed query as the spec words it, a single
range query from `now - hoursBack` to `now` with "now" sampled exactly once
per call. Stated only to compare the spec sentence against
`get_weather_data_from_db`. -/
def windowedSpec (db : WeatherDb) (now : Int) (hours : Int) : List WeatherRow :=
  weatherRangeQuery db (now - hours) now

/-- A pandas float cell: NaN or a numeric value. `pd.read_sql_query`
materialises an SQL NULL of a numeric column as NaN. -/
inductive PdVal where
  | nan
  | val (q : Rat)
deriving DecidableEq, Repr

/-- SQL NULL becomes NaN in the dataframe column. -/
def toPdVal : Option Rat → PdVal
  | Option.none => .nan
  | some q => .val q

/-- The non-NaN entries of a column. -/
def nonNan (xs : List PdVal) : List Rat :=
  xs.filterMap (fun v => match v with | .nan => Option.none | .val q => some q)

/-- `Series.mean()` with the default `skipna=True`: the arithmetic mean of
the non-NaN entries, NaN when there are none. -/
def pd_mean (xs : List PdVal) : PdVal :=
  match nonNan xs with
  | [] => .nan
  | v :: vs => .val ((v :: vs).sum / ((v :: vs).length : Rat))

/-- `Series.min()` with the default `skipna=True`. -/
def pd_min (xs : List PdVal) : PdVal :=
  match nonNan xs with
  | [] => .nan
  | v :: vs => .val (vs.foldl min v)

/-- `Series.max()` with the default `skipna=True`. -/
def pd_max (xs : List PdVal) : PdVal :=
  match nonNan xs with
  | [] => .nan
  | v :: vs => .val (vs.foldl max v)

/-- The statistics block of `generate_html_report` (lines 159-163): mean,
min and max of the temperature column and mean of the humidity column,
computed by pandas over the dataframe of the window. -/
def report_stats (df : List WeatherRow) : PdVal × PdVal × PdVal × PdVal :=
  let temps := df.map (fun r => toPdVal r.temperature_2m)
  let hums := df.map (fun r => toPdVal r.relative_humidity_2m)
  (pd_mean temps, pd_min temps, pd_max temps, pd_mean hums)

/-- The behaviour of the upstream endpoint for one request: a connection
failure, or a reply arriving after `delay` time units with a status code and
a body. The body is `none` when it is not a JSON document of the shape the
handler reads, in which case `response.json()` or the `hourly` key lookups
raise. -/
inductive Upstream where
  | netFail
  | reply (delay : Nat) (status : Nat) (body : Option HourlyData)
deriving DecidableEq, Repr

/-- The fixed outbound timeout passed on line 455: `timeout=10`. -/
def REQUESTS_TIMEOUT : Nat := 10

/-- `requests.get(url, params=params, timeout=timeoutLimit)`: a connection
failure or a reply slower than the timeout raises a
`requests.RequestException`; otherwise the response is returned. -/
def requests_get (timeoutLimit : Nat) (u : Upstream) :
    Except Unit (Nat × Option HourlyData) :=
  match u with
  | .netFail => .error ()
  | .reply d s b => if timeoutLimit < d then .error () else .ok (s, b)

/-- `response.raise_for_status()`: raises `requests.HTTPError` exactly for
the client-error (4xx) and server-error (5xx) status ranges; informational,
success and redirect statuses pass through without raising. -/
def raise_for_status (status : Nat) : Except Unit Unit :=
  if 400 ≤ status ∧ status < 600 then .error () else .ok ()

/-- The JSON response of the `/weather-report` handler. `apiError` is the
500 response built from `requests.RequestException` (line 471, body
`error: API request failed`); `internalError` is the 500 response built from
any other exception (line 473, body `error: Internal server error`);
`success` carries the `data_points` field of the success body (line 467). -/
inductive FetchResult where
  | success (dataPoints : Nat)
  | apiError
  | internalError
deriving DecidableEq, Repr

/-- The `/weather-report` handler `fetch_weather_report` (lines 437-473):
perform the upstream request with the fixed timeout, raise for status, read
the JSON body, store it via `insert_weather_data`, and answer with
`data_points = len(data.hourly.time)`. The second component is the durable
database state after the request: unchanged on every error path (an insert
error rolls back because the commit never ran). -/
def fetch_weather_report (lat lon : Rat) (u : Upstream) (db : WeatherDb) :
    FetchResult × WeatherDb :=
  match requests_get REQUESTS_TIMEOUT u with
  | .error _ => (.apiError, db)
  | .ok (status, body) =>
    match raise_for_status status with
    | .error _ => (.apiError, db)
    | .ok _ =>
      match body with
      | Option.none => (.internalError, db)
      | some data =>
        match insert_weather_data data lat lon db with
        | .error _ => (.internalError, db)
        | .ok db2 => (.success data.time.length, db2)

/-- Surrounding-whitespace stripping, as `int(str)` performs before
parsing. -/
def py_strip (cs : List Char) : List Char :=
  ((cs.dropWhile Char.isWhitespace).reverse.dropWhile Char.isWhitespace).reverse

/-- Python `int(str)`: strip surrounding whitespace, then an optional sign
followed by at least one decimal digit; anything else raises `ValueError`.
(Digit-group underscores and non-ASCII digits are not modelled.) -/
def py_int (s : String) : Option Int :=
  let cs := py_strip s.toList
  let signed : Int × List Char :=
    match cs with
    | '-' :: rest => (-1, rest)
    | '+' :: rest => (1, rest)
    | _ => (1, cs)
  if !signed.2.isEmpty && signed.2.all Char.isDigit then
    some (signed.1 *
      (signed.2.foldl (fun n c => 10 * n + (c.toNat - 48)) (0 : Nat) : Nat))
  else
    Option.none

/-- Flask `request.args.get(name, default=deflt, type=int)` (lines 480 and
535): an absent parameter, or a present value that `int()` rejects, yields
the default. -/
def flask_get_int (arg : Option String) (deflt : Int) : Int :=
  match arg with
  | Option.none => deflt
  | some s =>
    match py_int s with
    | some n => n
    | Option.none => deflt

/-- The response of an export handler: the 404 JSON error (no file), or a
file built from the windowed rows. The Excel file carries the timestamp,
temperature and humidity columns (lines 500-501); the PDF additionally
carries the report statistics. -/
inductive ExportResult where
  | notFound
  | excelFile (rows : List (Int × Option Rat × Option Rat))
  | pdfFile (rows : List (Int × Option Rat × Option Rat))
      (stats : PdVal × PdVal × PdVal × PdVal)
deriving DecidableEq, Repr

/-- The `/export/excel` handler `export_excel` (lines 475-528): `hours` comes
from the query string with default 48; an empty query result answers 404 with
a JSON error body and no file; otherwise the timestamp, temperature and
humidity columns are written to the spreadsheet. -/
def export_excel (db : WeatherDb) (clock : Nat → Int) (hoursArg : Option String) :
    ExportResult :=
  let hours := flask_get_int hoursArg 48
  let df := get_weather_data_from_db db clock hours
  if df.isEmpty then .notFound
  else .excelFile (df.map (fun r => (r.timestamp, r.temperature_2m, r.relative_humidity_2m)))

/-- The `/export/pdf` handler `export_pdf` (lines 530-583): `hours` from the
query string with default 48; an empty query result answers 404; otherwise
the rows are sorted by timestamp once more (line 544) and rendered together
with the report statistics. -/
def export_pdf (db : WeatherDb) (clock : Nat → Int) (hoursArg : Option String) :
    ExportResult :=
  let hours := flask_get_int hoursArg 48
  let df := get_weather_data_from_db db clock hours
  if df.isEmpty then .notFound
  else
    let df2 := List.insertionSort byTs df
    .pdfFile (df2.map (fun r => (r.timestamp, r.temperature_2m, r.relative_humidity_2m)))
      (report_stats df2)

/-- A database invariant every reachable state satisfies: every stored row
has an id below the autoincrement counter. -/
def dbWf (db : WeatherDb) : Prop := ∀ r ∈ db.rows, r.id < db.nextId

instance (db : WeatherDb) : Decidable (dbWf db) := List.decidableBAll _ db.rows

/-! Concrete states used to instantiate the theorems. -/

def emptyDb : WeatherDb := ⟨[], 0⟩

def rowAt3 : WeatherRow := ⟨0, 3, 1, 2, some 1, some 2⟩

def dbOneRow : WeatherDb := ⟨[rowAt3], 1⟩

/-- Two rows at timestamps 8 and 11. -/
def dbTwoSamples : WeatherDb :=
  ⟨[⟨0, 8, 1, 2, some 1, some 1⟩, ⟨1, 11, 1, 2, some 1, some 1⟩], 2⟩

/-- A clock whose first sample (line 63) is 10 and second sample (line 64)
is 11: one time unit elapses between the two datetime.now() calls. -/
def clockTwoSamples : Nat → Int := fun n => if n = 0 then 10 else 11

def sampleBatch : HourlyData := ⟨[0], [.num 20], [.num 50]⟩

/-- A payload whose humidity array is shorter than its time array: the
second loop iteration raises IndexError. -/
def raggedBatch : HourlyData := ⟨[0, 1], [.num 1, .num 1], [.num 1]⟩

def dfMixedNull : List WeatherRow :=
  [⟨0, 0, 1, 2, some 4, Option.none⟩, ⟨1, 1, 1, 2, Option.none, Option.none⟩]

def dfAllNull : List WeatherRow :=
  [⟨0, 0, 1, 2, Option.none, Option.none⟩, ⟨1, 1, 1, 2, Option.none, Option.none⟩]

/-! Helper lemmas. -/

theorem mem_weatherRangeQuery {db : WeatherDb} {fromT toT : Int} {r : WeatherRow} :
    r ∈ weatherRangeQuery db fromT toT ↔
      r ∈ db.rows ∧ fromT ≤ r.timestamp ∧ r.timestamp ≤ toT := by
  simp [weatherRangeQuery, List.mem_insertionSort, List.mem_filter, and_assoc]

theorem insertOrReplaceRow_rows {db : WeatherDb} (h : dbWf db)
    (ts : Int) (lat lon : Rat) (temp hum : Option Rat) :
    (insertOrReplaceRow db ts lat lon temp hum).rows =
      db.rows ++ [⟨db.nextId, ts, lat, lon, temp, hum⟩] := by
  unfold insertOrReplaceRow
  simp only [WeatherDb.mk.injEq]
  congr 1
  apply List.filter_eq_self.2
  intro r hr
  exact decide_eq_true (Nat.ne_of_lt (h r hr))

theorem insertOrReplaceRow_wf {db : WeatherDb} (h : dbWf db)
    (ts : Int) (lat lon : Rat) (temp hum : Option Rat) :
    dbWf (insertOrReplaceRow db ts lat lon temp hum) := by
  intro r hr
  rw [insertOrReplaceRow_rows h] at hr
  rcases List.mem_append.1 hr with hm | hm
  · exact Nat.lt_succ_of_lt (h r hm)
  · simp only [List.mem_singleton] at hm
    subst hm
    exact Nat.lt_succ_self _

theorem insertRows_ok_length (lat lon : Rat) :
    ∀ (ts : List Int) (tvs hvs : List PyVal) (db db2 : WeatherDb),
      dbWf db → insertRows lat lon ts tvs hvs db = .ok db2 →
      db2.rows.length = db.rows.length + ts.length := by
  intro ts
  induction ts with
  | nil =>
    intro tvs hvs db db2 _ h
    simp only [insertRows] at h
    cases h
    simp
  | cons t ts ih =>
    intro tvs hvs db db2 hwf h
    match tvs, hvs with
    | [], _ => simp [insertRows] at h
    | _ :: _, [] => simp [insertRows] at h
    | tv :: tvs, hv :: hvs =>
      simp only [insertRows] at h
      cases htv : bindVal tv with
      | error e => rw [htv] at h; simp at h
      | ok tq =>
        cases hhv : bindVal hv with
        | error e => rw [htv, hhv] at h; simp at h
        | ok hq =>
          rw [htv, hhv] at h
          have hwf2 := insertOrReplaceRow_wf hwf t lat lon tq hq
          have := ih tvs hvs _ db2 hwf2 h
          rw [this, insertOrReplaceRow_rows hwf]
          simp [Nat.add_comm, Nat.add_assoc, Nat.add_left_comm]

theorem nonNan_map_toPdVal (f : WeatherRow → Option Rat) (df : List WeatherRow) :
    nonNan (df.map (fun r => toPdVal (f r))) = df.filterMap f := by
  induction df with
  | nil => rfl
  | cons r t ih =>
    cases h : f r <;>
      simp [nonNan, toPdVal, h, List.filterMap_cons] at ih ⊢ <;>
      exact ih

/-! Claim theorems. -/

/-- C1: the spec claims re-ingesting the same (timestamp, latitude,
longitude) replaces the prior row, so the store never holds two rows with the
same natural key. The code violates this: the schema of init_db declares no
UNIQUE constraint on (timestamp, latitude, longitude), so INSERT OR REPLACE
never meets a conflict and appends. Ingesting the one-observation batch
sampleBatch twice at location (1, 2) leaves two rows with the identical
natural key (0, 1, 2), and the covering range query returns both. -/
theorem reingest_same_key_appends :
    insert_weather_data sampleBatch 1 2 emptyDb =
      .ok ⟨[⟨0, 0, 1, 2, some 20, some 50⟩], 1⟩
    ∧ insert_weather_data sampleBatch 1 2 ⟨[⟨0, 0, 1, 2, some 20, some 50⟩], 1⟩ =
      .ok ⟨[⟨0, 0, 1, 2, some 20, some 50⟩, ⟨1, 0, 1, 2, some 20, some 50⟩], 2⟩
    ∧ (weatherRangeQuery ⟨[⟨0, 0, 1, 2, some 20, some 50⟩, ⟨1, 0, 1, 2, some 20, some 50⟩], 2⟩
        0 0).map (fun r => (r.timestamp, r.latitude, r.longitude)) = [(0, 1, 2), (0, 1, 2)] := by
  refine ⟨rfl, rfl, ?_⟩
  decide

/-- C2 counterexample: the windowed query is not a single range query with
"now" sampled once. With the store dbTwoSamples (rows at timestamps 8 and
11) and the clock clockTwoSamples (first now-sample 10, second 11), the call
with hoursBack = 2 returns both rows, but no single-sample window
[now - 2, now] contains both timestamps 8 and 11. -/
theorem windowed_not_single_sample :
    ¬ ∃ now : Int,
      get_weather_data_from_db dbTwoSamples clockTwoSamples 2 =
        windowedSpec dbTwoSamples now 2 := by
  rintro ⟨now, hEq⟩
  have h8 : (⟨0, 8, 1, 2, some 1, some 1⟩ : WeatherRow) ∈ windowedSpec dbTwoSamples now 2 := by
    rw [← hEq]; decide
  have h11 : (⟨1, 11, 1, 2, some 1, some 1⟩ : WeatherRow) ∈ windowedSpec dbTwoSamples now 2 := by
    rw [← hEq]; decide
  rw [windowedSpec, mem_weatherRangeQuery] at h8 h11
  have hA : now - 2 ≤ 8 := h8.2.1
  have hB : (11 : Int) ≤ now := h11.2.2
  omega

/-- C2 amended: get_weather_data_from_db samples datetime.now() twice, once
for each bound of the window, so it equals the range query
[now1 - hoursBack, now2] over the two successive samples; whenever the two
samples coincide (no time elapses between lines 63 and 64) it equals the
single-sample range query from now - hoursBack to now of the spec. -/
theorem windowed_eq_range_of_equal_samples
    (db : WeatherDb) (clock : Nat → Int) (hours : Int)
    (h : clock 0 = clock 1) :
    get_weather_data_from_db db clock hours = windowedSpec db (clock 1) hours := by
  simp [get_weather_data_from_db, windowedSpec, h]

theorem windowed_eq_range_of_equal_samples_w :
    ((fun _ : Nat => (5 : Int)) 0 = (fun _ : Nat => (5 : Int)) 1)
    ∧ get_weather_data_from_db dbOneRow (fun _ => 5) 48 = windowedSpec dbOneRow 5 48 :=
  ⟨rfl, windowed_eq_range_of_equal_samples dbOneRow (fun _ => 5) 48 rfl⟩

/-- C4: the range query returns exactly the stored rows whose timestamp t
satisfies fromTime ≤ t ≤ toTime (inclusive on both ends), ordered ascending
by timestamp, and queryRange(t, t) returns only rows with timestamp exactly
t. -/
theorem query_range_inclusive_sorted (db : WeatherDb) :
    (∀ fromT toT : Int,
      (∀ r : WeatherRow, r ∈ weatherRangeQuery db fromT toT ↔
        r ∈ db.rows ∧ fromT ≤ r.timestamp ∧ r.timestamp ≤ toT)
      ∧ (weatherRangeQuery db fromT toT).Perm
          (db.rows.filter (fun r => decide (fromT ≤ r.timestamp) && decide (r.timestamp ≤ toT)))
      ∧ List.Sorted byTs (weatherRangeQuery db fromT toT))
    ∧ ∀ t : Int, ∀ r ∈ weatherRangeQuery db t t, r.timestamp = t := by
  refine ⟨fun fromT toT => ⟨fun r => mem_weatherRangeQuery, ?_, ?_⟩, fun t r hr => ?_⟩
  · exact List.perm_insertionSort byTs _
  · exact List.sorted_insertionSort byTs _
  · have h := mem_weatherRangeQuery.1 hr
    exact le_antisymm h.2.2 h.2.1

theorem query_range_inclusive_sorted_w :
    rowAt3 ∈ weatherRangeQuery dbOneRow 3 3 ∧ rowAt3.timestamp = 3 :=
  ⟨by decide, (query_range_inclusive_sorted dbOneRow).2 3 rowAt3 (by decide)⟩

/-- C8: the windowed query is deterministic: two calls against the same
store state whose two datetime.now() samples agree return identical ordered
sequences of observations. -/
theorem windowed_query_deterministic
    (db : WeatherDb) (hours : Int) (c1 c2 : Nat → Int)
    (h0 : c1 0 = c2 0) (h1 : c1 1 = c2 1) :
    get_weather_data_from_db db c1 hours = get_weather_data_from_db db c2 hours := by
  simp [get_weather_data_from_db, h0, h1]

theorem windowed_query_deterministic_w :
    ((fun _ : Nat => (5 : Int)) 0 = (fun n : Nat => if n ≤ 1 then (5 : Int) else 9) 0)
    ∧ ((fun _ : Nat => (5 : Int)) 1 = (fun n : Nat => if n ≤ 1 then (5 : Int) else 9) 1)
    ∧ get_weather_data_from_db dbOneRow (fun _ => 5) 48 =
        get_weather_data_from_db dbOneRow (fun n => if n ≤ 1 then 5 else 9) 48 :=
  ⟨by decide, by decide,
    windowed_query_deterministic dbOneRow 48 _ _ (by decide) (by decide)⟩

/-- C3: batch upsert is atomic. If any row of the batch fails (a malformed
value rejected at binding, or a ragged value array), the loop aborts before
conn.commit() runs, so the transaction rolls back: the durable store is
unchanged and the request handler answers with the single internal-error
response. -/
theorem insert_failure_is_atomic
    (data : HourlyData) (lat lon : Rat) (db : WeatherDb) (e : DbError)
    (h : insert_weather_data data lat lon db = .error e) :
    fetch_weather_report lat lon (.reply 0 200 (some data)) db = (.internalError, db) := by
  simp [fetch_weather_report, requests_get, REQUESTS_TIMEOUT, raise_for_status, h]

theorem insert_failure_is_atomic_w :
    insert_weather_data raggedBatch 1 2 dbOneRow = .error .indexError
    ∧ fetch_weather_report 1 2 (.reply 0 200 (some raggedBatch)) dbOneRow =
        (.internalError, dbOneRow) :=
  ⟨rfl, insert_failure_is_atomic raggedBatch 1 2 dbOneRow .indexError rfl⟩

/-- C5: the report statistics aggregate null-safely. The mean of the
temperature column is taken over exactly the rows whose temperature is
non-null; when every row is null the mean, min and max are all NaN (the
undefined value, distinct from every numeric value, produced without any
exception). -/
theorem summarize_null_safe (df : List WeatherRow) :
    (df.filterMap (fun r => r.temperature_2m) ≠ [] →
      (report_stats df).1 = .val ((df.filterMap (fun r => r.temperature_2m)).sum /
        ((df.filterMap (fun r => r.temperature_2m)).length : Rat)))
    ∧ ((∀ r ∈ df, r.temperature_2m = Option.none) →
      (report_stats df).1 = .nan ∧ (report_stats df).2.1 = .nan ∧
        (report_stats df).2.2.1 = .nan)
    ∧ ∀ q : Rat, PdVal.nan ≠ PdVal.val q := by
  have hn : nonNan (df.map (fun r => toPdVal r.temperature_2m)) =
      df.filterMap (fun r => r.temperature_2m) :=
    nonNan_map_toPdVal (fun r => r.temperature_2m) df
  refine ⟨?_, ?_, fun q h => by cases h⟩
  · intro hne
    rw [report_stats]
    simp only [pd_mean, hn]
    cases hv : df.filterMap (fun r => r.temperature_2m) with
    | nil => exact absurd hv hne
    | cons v vs => rfl
  · intro hall
    have hnil : df.filterMap (fun r => r.temperature_2m) = [] :=
      List.filterMap_eq_nil_iff.2 hall
    rw [report_stats]
    simp [pd_mean, pd_min, pd_max, hn, hnil]

theorem summarize_null_safe_w :
    (dfMixedNull.filterMap (fun r => r.temperature_2m) ≠ [] ∧
      (report_stats dfMixedNull).1 = .val 4)
    ∧ ((∀ r ∈ dfAllNull, r.temperature_2m = Option.none) ∧
      (report_stats dfAllNull).1 = .nan) := by
  refine ⟨⟨by decide, ?_⟩, by decide, ((summarize_null_safe dfAllNull).2.1 (by decide)).1⟩
  have h := (summarize_null_safe dfMixedNull).1 (by decide)
  rw [h]
  simp only [dfMixedNull, List.filterMap_cons, List.filterMap_nil]
  norm_num

/-- C6 counterexample: a non-2xx upstream response does not always yield the
error path. raise_for_status raises only for 4xx and 5xx, so a redirect-range
status such as 300 passes; with a body of the expected shape the handler
ingests it and answers success, mutating the store. -/
theorem non2xx_redirect_is_ingested :
    (fetch_weather_report 1 2 (.reply 0 300 (some sampleBatch)) emptyDb).1 = .success 1
    ∧ (fetch_weather_report 1 2 (.reply 0 300 (some sampleBatch)) emptyDb).2 ≠ emptyDb := by
  decide

/-- C6 amended: a network failure, a timeout (the outbound call is bounded by
the fixed timeout of 10 time units), or a 4xx/5xx upstream response yields
the distinguishable API-request-failed error response and leaves the store
unmutated. (A redirect-range non-2xx status is not rejected by
raise_for_status; see the counterexample.) -/
theorem upstream_failure_no_mutation (lat lon : Rat) (db : WeatherDb) :
    fetch_weather_report lat lon .netFail db = (.apiError, db)
    ∧ (∀ (d s : Nat) (b : Option HourlyData), REQUESTS_TIMEOUT < d →
        fetch_weather_report lat lon (.reply d s b) db = (.apiError, db))
    ∧ (∀ (d s : Nat) (b : Option HourlyData),
        d ≤ REQUESTS_TIMEOUT → 400 ≤ s → s < 600 →
        fetch_weather_report lat lon (.reply d s b) db = (.apiError, db))
    ∧ FetchResult.apiError ≠ FetchResult.internalError
    ∧ ∀ n : Nat, FetchResult.apiError ≠ FetchResult.success n := by
  refine ⟨rfl, ?_, ?_, by decide, ?_⟩
  · intro d s b hd
    simp [fetch_weather_report, requests_get, hd]
  · intro d s b hd h4 h6
    simp [fetch_weather_report, requests_get, raise_for_status, Nat.not_lt.2 hd, h4, h6]
  · intro n hc
    cases hc

theorem upstream_failure_no_mutation_w :
    fetch_weather_report 1 2 .netFail dbOneRow = (.apiError, dbOneRow)
    ∧ (REQUESTS_TIMEOUT < 11 ∧
        fetch_weather_report 1 2 (.reply 11 200 Option.none) dbOneRow = (.apiError, dbOneRow))
    ∧ (3 ≤ REQUESTS_TIMEOUT ∧ 400 ≤ 404 ∧ 404 < 600 ∧
        fetch_weather_report 1 2 (.reply 3 404 Option.none) dbOneRow = (.apiError, dbOneRow)) :=
  ⟨(upstream_failure_no_mutation 1 2 dbOneRow).1,
    ⟨by decide, (upstream_failure_no_mutation 1 2 dbOneRow).2.1 11 200 Option.none (by decide)⟩,
    ⟨by decide, by decide, by decide,
      (upstream_failure_no_mutation 1 2 dbOneRow).2.2.1 3 404 Option.none
        (by decide) (by decide) (by decide)⟩⟩

/-- C7: when the windowed query of an export request returns no rows, both
export handlers answer the 404 not-found JSON error, which is not a file of
either kind: an empty window is never rendered as an artifact. -/
theorem empty_window_exports_not_found
    (db : WeatherDb) (clock : Nat → Int) (hoursArg : Option String)
    (h : get_weather_data_from_db db clock (flask_get_int hoursArg 48) = []) :
    export_excel db clock hoursArg = .notFound
    ∧ export_pdf db clock hoursArg = .notFound
    ∧ (∀ rows, ExportResult.notFound ≠ .excelFile rows)
    ∧ ∀ rows stats, ExportResult.notFound ≠ .pdfFile rows stats := by
  refine ⟨?_, ?_, ?_, ?_⟩
  · simp [export_excel, h]
  · simp [export_pdf, h]
  · intro rows hc
    cases hc
  · intro rows stats hc
    cases hc

theorem empty_window_exports_not_found_w :
    get_weather_data_from_db emptyDb (fun _ => 0) (flask_get_int Option.none 48) = []
    ∧ export_excel emptyDb (fun _ => 0) Option.none = .notFound
    ∧ export_pdf emptyDb (fun _ => 0) Option.none = .notFound :=
  ⟨by decide,
    (empty_window_exports_not_found emptyDb (fun _ => 0) Option.none (by decide)).1,
    (empty_window_exports_not_found emptyDb (fun _ => 0) Option.none (by decide)).2.1⟩

/-- C9: a present hours value that int() rejects makes Flask return the
default, so both export handlers behave exactly as if the parameter were
absent (default 48); the malformed value by itself never produces an error
response. -/
theorem malformed_hours_uses_default
    (db : WeatherDb) (clock : Nat → Int) (s : String)
    (h : py_int s = Option.none) :
    flask_get_int (some s) 48 = 48
    ∧ export_excel db clock (some s) = export_excel db clock Option.none
    ∧ export_pdf db clock (some s) = export_pdf db clock Option.none := by
  refine ⟨by simp [flask_get_int, h], ?_, ?_⟩
  · simp [export_excel, flask_get_int, h]
  · simp [export_pdf, flask_get_int, h]

theorem malformed_hours_uses_default_w :
    py_int "abc" = Option.none
    ∧ flask_get_int (some "abc") 48 = 48
    ∧ export_excel dbOneRow (fun _ => 5) (some "abc") =
        export_excel dbOneRow (fun _ => 5) Option.none :=
  ⟨by decide,
    (malformed_hours_uses_default dbOneRow (fun _ => 5) "abc" (by decide)).1,
    (malformed_hours_uses_default dbOneRow (fun _ => 5) "abc" (by decide)).2.1⟩

/-- C10: a successful /weather-report response reports data_points equal to
the length of the upstream hourly time array, and exactly that many rows were
passed to the store (one INSERT per array index, each appending one row). -/
theorem data_points_matches_rows
    (lat lon : Rat) (u : Upstream) (db : WeatherDb) (n : Nat) (db2 : WeatherDb)
    (hwf : dbWf db)
    (h : fetch_weather_report lat lon u db = (.success n, db2)) :
    ∃ (delay status : Nat) (data : HourlyData),
      u = .reply delay status (some data)
      ∧ n = data.time.length
      ∧ db2.rows.length = db.rows.length + n := by
  match u with
  | .netFail => simp [fetch_weather_report, requests_get] at h
  | .reply d s b =>
    by_cases hd : REQUESTS_TIMEOUT < d
    · simp [fetch_weather_report, requests_get, hd] at h
    · simp only [fetch_weather_report, requests_get, if_pos, if_neg hd] at h
      rcases hrs : raise_for_status s with _ | _
      · rw [hrs] at h; simp at h
      · rw [hrs] at h
        match b with
        | Option.none => simp at h
        | some data =>
          simp only [] at h
          rcases hins : insert_weather_data data lat lon db with e | dbOk
          · rw [hins] at h; simp at h
          · rw [hins] at h
            simp only [Prod.mk.injEq, FetchResult.success.injEq] at h
            refine ⟨d, s, data, rfl, h.1.symm, ?_⟩
            have hlen := insertRows_ok_length lat lon data.time data.temperature_2m
              data.relative_humidity_2m db dbOk hwf hins
            rw [h.2] at hlen
            rw [hlen, h.1]

theorem data_points_matches_rows_w :
    dbWf dbOneRow
    ∧ fetch_weather_report 1 2 (.reply 0 200 (some sampleBatch)) dbOneRow =
        (.success 1, ⟨[rowAt3, ⟨1, 0, 1, 2, some 20, some 50⟩], 2⟩)
    ∧ ∃ (delay status : Nat) (data : HourlyData),
        (Upstream.reply 0 200 (some sampleBatch)) = .reply delay status (some data)
        ∧ 1 = data.time.length
        ∧ (⟨[rowAt3, ⟨1, 0, 1, 2, some 20, some 50⟩], 2⟩ : WeatherDb).rows.length =
            dbOneRow.rows.length + 1 :=
  ⟨by decide, by decide,
    data_points_matches_rows 1 2 (.reply 0 200 (some sampleBatch)) dbOneRow 1
      ⟨[rowAt3, ⟨1, 0, 1, 2, some 20, some 50⟩], 2⟩ (by decide) (by decide)⟩

end WeatherApp
